import Mathlib

/-!
Verification of the haptic mapping engine of the Smart Knob firmware
(`src/HapticKnobFirmware.ino`).

The firmware works with `float` angles; here the arithmetic is embedded over
`ℚ` (exact), with the SimpleFOC constants `_PI = 3.14159265359f` and
`_2PI = 6.28318530718f` taken at their literal values.  C's `round` is
round-half-away-from-zero; Arduino's `constrain(amt, low, high)` is
`(amt < low ? low : (amt > high ? high : amt))`.  Both are embedded exactly.
-/

namespace HapticKnob

/-- The SimpleFOC constant `_PI` (a float literal in the firmware). -/
def piConst : ℚ := 314159265359 / 100000000000

/-- The SimpleFOC constant `_2PI` (a float literal in the firmware). -/
def twoPiConst : ℚ := 628318530718 / 100000000000

/-- Arduino `constrain` on angles: `(amt < low ? low : (amt > high ? high : amt))`. -/
def constrain (x lo hi : ℚ) : ℚ :=
  if x < lo then lo else if hi < x then hi else x

/-- Arduino `constrain` on `long`/`int` values. -/
def constrainInt (x lo hi : ℤ) : ℤ :=
  if x < lo then lo else if hi < x then hi else x

/-- C library `round`: round to nearest, ties away from zero. -/
def roundAway (x : ℚ) : ℤ :=
  if x < 0 then -round (-x) else round x

/-- The `KnobSettings` struct of the firmware. -/
structure KnobSettings where
  name : String
  is_bounded : Bool
  min_angle_rad : ℚ
  max_angle_rad : ℚ
  num_detents : ℤ
  detent_strength_P : ℚ
  steps_per_revolution : ℤ
deriving DecidableEq

/-- The haptic transform: the computation of `calculated_foc_target_angle`
in `loop()` (lines 143-179), as a function of the active settings, the
calibration offset `motor_shaft_offset` and the raw shaft angle. -/
def hapticTargetAngle (s : KnobSettings) (offset shaft : ℚ) : ℚ :=
  if s.is_bounded then
    let min_b := s.min_angle_rad
    let max_b := s.max_angle_rad
    let span := max_b - min_b
    if span ≤ 1 / 1000 then
      constrain shaft min_b max_b
    else if 0 < s.num_detents then
      let nEff := if 0 < s.num_detents then s.num_detents else 1
      let spacing := span / (nEff : ℚ)
      let idx := constrainInt (roundAway ((shaft - min_b) / spacing)) 0 nEff
      constrain (min_b + (idx : ℚ) * spacing) min_b max_b
    else
      constrain shaft min_b max_b
  else
    if 0 < s.num_detents then
      let nEff := if 0 < s.num_detents then s.num_detents else 1
      let spacing := twoPiConst / (nEff : ℚ)
      (roundAway ((shaft - offset) / spacing) : ℚ) * spacing + offset
    else
      shaft

/-- The step quantizer: the computation of `new_step_output` in `loop()`
(lines 186-203). -/
def stepOutput (s : KnobSettings) (offset shaft : ℚ) : ℤ :=
  if 0 < s.steps_per_revolution then
    if s.is_bounded then
      let span := s.max_angle_rad - s.min_angle_rad
      if 1 / 1000 < span then
        let inSpan := constrain (shaft - s.min_angle_rad) 0 span
        let stepWidth := span / (s.steps_per_revolution : ℚ)
        constrainInt (roundAway (inSpan / stepWidth)) 0 s.steps_per_revolution
      else 0
    else
      let stepWidth := twoPiConst / (s.steps_per_revolution : ℚ)
      roundAway ((shaft - offset) / stepWidth)
  else 0

/-- The gain handed to the position controller: `motor.P_angle.P` is set to
`current_knob_settings.detent_strength_P` unconditionally (line 182). -/
def hapticGain (s : KnobSettings) : ℚ :=
  s.detent_strength_P

/-- Sentinel for `last_reported_step` (`-99999L`). -/
def SENTINEL : ℤ := -99999

/-- `MAX_PRESET_MODES` in the firmware. -/
def MAX_PRESET_MODES : ℤ := 6

/-- Outcome classification of a serial command callback: `ok` for a
successful mutation, `error` for a rejected one (an `Error: ...` print),
`info` for an informational skip (the bounded-mode `Calibrate` message). -/
inductive CmdStatus
  | ok
  | error
  | info
deriving DecidableEq

/-- The mutable global state of the firmware that the core logic touches:
the preset table, the last-loaded preset index, the active configuration,
the current/last-reported step, and the calibration offset. -/
structure KnobState where
  preset_modes : List KnobSettings
  current_preset_mode_idx : ℤ
  current_knob_settings : KnobSettings
  current_step_output : ℤ
  last_reported_step : ℤ
  motor_shaft_offset : ℚ
deriving DecidableEq

/-- Result of one control-loop iteration: the commanded target angle and
gain, the computed step, whether a `STEP:` line was emitted, and the line
itself when emitted. -/
structure TickResult where
  targetAngle : ℚ
  gain : ℚ
  stepIndex : ℤ
  stepChanged : Bool
  serialOut : List String
deriving DecidableEq

/-- One `loop()` iteration with no pending serial command (lines 139-212):
compute the haptic target and gain, compute the step, store it, and emit a
`STEP:` line exactly when it differs from `last_reported_step`. -/
def tick (st : KnobState) (shaft : ℚ) : KnobState × TickResult :=
  let target := hapticTargetAngle st.current_knob_settings st.motor_shaft_offset shaft
  let gain := hapticGain st.current_knob_settings
  let step := stepOutput st.current_knob_settings st.motor_shaft_offset shaft
  let changed : Bool := decide (step ≠ st.last_reported_step)
  ({ st with
      current_step_output := step,
      last_reported_step := if changed then step else st.last_reported_step },
   { targetAngle := target, gain := gain, stepIndex := step, stepChanged := changed,
     serialOut := if changed then ["STEP:" ++ toString step] else [] })

/-- `applyCurrentSettingsToMotor()` (lines 218-222): the only core-state
effect is resetting `last_reported_step` to the sentinel (the gain write is
re-done every loop anyway). -/
def applyCurrentSettingsToMotor (st : KnobState) : KnobState :=
  { st with last_reported_step := SENTINEL }

/-- Placeholder value for an out-of-bounds preset read; never reached when
the index guard has passed and the table has its build-time length. -/
def emptySettings : KnobSettings :=
  ⟨"", false, 0, 0, 0, 0, 0⟩

/-- `doSwitchPresetMode` (lines 224-233). -/
def doSwitchPresetMode (st : KnobState) (idx : ℤ) : KnobState × CmdStatus :=
  if 0 ≤ idx ∧ idx < MAX_PRESET_MODES then
    (applyCurrentSettingsToMotor
      { st with
          current_preset_mode_idx := idx,
          current_knob_settings := st.preset_modes.getD idx.toNat emptySettings },
     .ok)
  else
    (st, .error)

/-- `doCalibrate` (lines 235-242); `shaft` is the current sensor reading. -/
def doCalibrate (st : KnobState) (shaft : ℚ) : KnobState × CmdStatus :=
  if st.current_knob_settings.is_bounded = false then
    ({ st with
        motor_shaft_offset := shaft,
        current_step_output := 0,
        last_reported_step := SENTINEL },
     .ok)
  else
    (st, .info)

/-- `doSetNumDetents` (lines 259-266); `val` is the parsed integer. -/
def doSetNumDetents (st : KnobState) (val : ℤ) : KnobState × CmdStatus :=
  if 0 ≤ val then
    (applyCurrentSettingsToMotor
      { st with
          current_knob_settings :=
            { st.current_knob_settings with num_detents := val, name := "Custom" } },
     .ok)
  else
    (st, .error)

/-- `doSetDetentStrength` (lines 268-275); `val` is the parsed float. -/
def doSetDetentStrength (st : KnobState) (val : ℚ) : KnobState × CmdStatus :=
  if 0 ≤ val then
    (applyCurrentSettingsToMotor
      { st with
          current_knob_settings :=
            { st.current_knob_settings with detent_strength_P := val, name := "Custom" } },
     .ok)
  else
    (st, .error)

/-- `doSetStepsPerRev` (lines 277-284): zero is accepted (`val >= 0`). -/
def doSetStepsPerRev (st : KnobState) (val : ℤ) : KnobState × CmdStatus :=
  if 0 ≤ val then
    (applyCurrentSettingsToMotor
      { st with
          current_knob_settings :=
            { st.current_knob_settings with steps_per_revolution := val, name := "Custom" } },
     .ok)
  else
    (st, .error)

/-- `doSetBounded` (lines 286-294); `val` is the parsed integer. -/
def doSetBounded (st : KnobState) (val : ℤ) : KnobState × CmdStatus :=
  if val = 0 ∨ val = 1 then
    (applyCurrentSettingsToMotor
      { st with
          current_knob_settings :=
            { st.current_knob_settings with is_bounded := decide (val = 1), name := "Custom" } },
     .ok)
  else
    (st, .error)

/-- `doSetMinAngle` (lines 296-301): no validation. -/
def doSetMinAngle (st : KnobState) (val : ℚ) : KnobState × CmdStatus :=
  (applyCurrentSettingsToMotor
    { st with
        current_knob_settings :=
          { st.current_knob_settings with min_angle_rad := val, name := "Custom" } },
   .ok)

/-- `doSetMaxAngle` (lines 303-308): no validation. -/
def doSetMaxAngle (st : KnobState) (val : ℚ) : KnobState × CmdStatus :=
  (applyCurrentSettingsToMotor
    { st with
        current_knob_settings :=
          { st.current_knob_settings with max_angle_rad := val, name := "Custom" } },
   .ok)

/-- The preset table built in `setup()` (lines 62-86); `min`/`max` of the
unbounded presets are left at their zero-initialised values. -/
def setupPresetModes : List KnobSettings :=
  [ ⟨"Unbounded Smooth", false, 0, 0, 0, 10, 360⟩,
    ⟨"Unbounded 12 Detents", false, 0, 0, 12, 25, 12⟩,
    ⟨"Bounded 0-180deg, 8 Det", true, 0, piConst, 8, 15, 8⟩,
    ⟨"Volume Knob (0-100)", true, 0, twoPiConst, 100, 25, 100⟩,
    ⟨"Fine Adjust Unbounded", false, 0, 0, 72, 30, 72⟩,
    ⟨"Switch (4-pos)", true, 0, 157 / 100, 3, 30, 3⟩ ]

/-- The state right after `setup()`: preset 0 loaded, everything else at its
boot value, `last_reported_step` at the sentinel via
`applyCurrentSettingsToMotor`. -/
def setupState : KnobState :=
  { preset_modes := setupPresetModes,
    current_preset_mode_idx := 0,
    current_knob_settings := ⟨"Unbounded Smooth", false, 0, 0, 0, 10, 360⟩,
    current_step_output := 0,
    last_reported_step := SENTINEL,
    motor_shaft_offset := 0 }

/-! ### Helper lemmas -/

theorem constrain_eq_self {x lo hi : ℚ} (h1 : lo ≤ x) (h2 : x ≤ hi) :
    constrain x lo hi = x := by
  unfold constrain
  rw [if_neg (not_lt.2 h1), if_neg (not_lt.2 h2)]

theorem constrain_mem_Icc (x : ℚ) {lo hi : ℚ} (h : lo ≤ hi) :
    constrain x lo hi ∈ Set.Icc lo hi := by
  rw [Set.mem_Icc]
  unfold constrain
  by_cases h1 : x < lo
  · rw [if_pos h1]
    exact ⟨le_rfl, h⟩
  · rw [if_neg h1]
    by_cases h2 : hi < x
    · rw [if_pos h2]
      exact ⟨h, le_rfl⟩
    · rw [if_neg h2]
      exact ⟨not_lt.1 h1, not_lt.1 h2⟩

theorem constrainInt_bounds {x lo hi : ℤ} (h : lo ≤ hi) :
    lo ≤ constrainInt x lo hi ∧ constrainInt x lo hi ≤ hi := by
  unfold constrainInt
  by_cases h1 : x < lo
  · rw [if_pos h1]
    omega
  · rw [if_neg h1]
    by_cases h2 : hi < x
    · rw [if_pos h2]
      omega
    · rw [if_neg h2]
      omega

theorem constrainInt_eq_self {x lo hi : ℤ} (h1 : lo ≤ x) (h2 : x ≤ hi) :
    constrainInt x lo hi = x := by
  unfold constrainInt
  rw [if_neg (not_lt.2 h1), if_neg (not_lt.2 h2)]

theorem roundAway_intCast (n : ℤ) : roundAway (n : ℚ) = n := by
  unfold roundAway
  split
  · rw [← Int.cast_neg, round_intCast]
    ring
  · exact round_intCast n

/-! ### Concrete configurations used in examples and counterexamples -/

/-- Preset 2 of the firmware: bounded over `[0, _PI]` with 8 detents. -/
def boundedPiEightSettings : KnobSettings :=
  ⟨"Bounded 0-180deg, 8 Det", true, 0, piConst, 8, 15, 8⟩

/-- Preset 1 of the firmware: unbounded with 12 detents. -/
def unboundedTwelveSettings : KnobSettings :=
  ⟨"Unbounded 12 Detents", false, 0, 0, 12, 25, 12⟩

/-- A bounded configuration with `min_angle_rad > max_angle_rad`. -/
def invertedSpanSettings : KnobSettings :=
  ⟨"Inverted span", true, 1, 0, 0, 1, 0⟩

/-- The degenerate-span configuration of spec Example 4:
`min = 1.0`, `max = 1.0005`. -/
def degenerateSpanSettings : KnobSettings :=
  ⟨"Degenerate span", true, 1, 2001 / 2000, 5, 1, 5⟩

/-- An unbounded configuration with one step per revolution. -/
def oneStepUnboundedSettings : KnobSettings :=
  ⟨"One step", false, 0, 0, 0, 1, 1⟩

/-- A `KnobState` carrying the given active configuration. -/
def stateWith (s : KnobSettings) : KnobState :=
  { setupState with current_knob_settings := s }

/-! ### C10 -/

/-- C10: a tick (one loop iteration with no pending command) never modifies
the active configuration (any `KnobSettings` field including the name), the
calibration offset, the preset table, or the current preset index; the only
state components it may write are the current step output and
`last_reported_step`. -/
theorem C10_tick_frame (st : KnobState) (a : ℚ) :
    (tick st a).1.current_knob_settings = st.current_knob_settings ∧
    (tick st a).1.motor_shaft_offset = st.motor_shaft_offset ∧
    (tick st a).1.preset_modes = st.preset_modes ∧
    (tick st a).1.current_preset_mode_idx = st.current_preset_mode_idx :=
  ⟨rfl, rfl, rfl, rfl⟩

/-! ### C3 -/

/-- C3 (counterexample): for the bounded configuration with
`min_angle_rad = 1 > max_angle_rad = 0` and shaft angle `0`, the transform
returns `1`, which does not lie in the interval `[min_angle, max_angle]`
(that interval is empty), refuting the claim for `min > max`. -/
theorem C3_counterexample :
    ¬ hapticTargetAngle invertedSpanSettings 0 0 ∈
        Set.Icc invertedSpanSettings.min_angle_rad invertedSpanSettings.max_angle_rad := by
  norm_num [hapticTargetAngle, invertedSpanSettings, constrain, Set.mem_Icc]

/-- C3 (amended): for all bounded settings with
`min_angle_rad ≤ max_angle_rad` (degenerate spans included) and every shaft
angle, the target returned by the haptic transform lies within
`[min_angle, max_angle]` inclusive. -/
theorem C3_bounded_clamp_invariant (s : KnobSettings) (o a : ℚ)
    (hb : s.is_bounded = true) (hmm : s.min_angle_rad ≤ s.max_angle_rad) :
    hapticTargetAngle s o a ∈ Set.Icc s.min_angle_rad s.max_angle_rad := by
  rw [hapticTargetAngle, hb]
  simp only [if_true]
  split
  · exact constrain_mem_Icc _ hmm
  · split
    · exact constrain_mem_Icc _ hmm
    · exact constrain_mem_Icc _ hmm

/-- Closed witness for the amended C3, at preset 2 and a far-out shaft
angle. -/
theorem C3_bounded_clamp_invariant_witness :
    hapticTargetAngle boundedPiEightSettings 0 100 ∈ Set.Icc (0 : ℚ) piConst :=
  C3_bounded_clamp_invariant boundedPiEightSettings 0 100 rfl
    (by norm_num [boundedPiEightSettings, piConst])

/-! ### C6 -/

/-- C6: for every bounded settings with span `max - min ≤ 0.001` and any
shaft angle, the haptic transform takes the degenerate branch and returns
`constrain shaft min max`, and the step quantizer returns `0`; neither
divides by the near-zero spacing (both functions are total). -/
theorem C6_degenerate_span (s : KnobSettings) (o a : ℚ)
    (hb : s.is_bounded = true)
    (hspan : s.max_angle_rad - s.min_angle_rad ≤ 1 / 1000) :
    hapticTargetAngle s o a = constrain a s.min_angle_rad s.max_angle_rad ∧
    stepOutput s o a = 0 := by
  constructor
  · rw [hapticTargetAngle, hb]
    simp only [if_true]
    rw [if_pos hspan]
  · rw [stepOutput, hb]
    simp only [if_true]
    rw [if_neg (not_lt.2 hspan)]
    split <;> rfl

/-- Closed witness for C6, at spec Example 4 (`min = 1.0`, `max = 1.0005`)
and shaft angle `3.5`. -/
theorem C6_degenerate_span_witness :
    hapticTargetAngle degenerateSpanSettings 0 (7 / 2) =
        constrain (7 / 2) 1 (2001 / 2000) ∧
    stepOutput degenerateSpanSettings 0 (7 / 2) = 0 :=
  C6_degenerate_span degenerateSpanSettings 0 (7 / 2) rfl
    (by norm_num [degenerateSpanSettings])

/-! ### C7 -/

/-- C7: every rejected mutation leaves the whole state unchanged and is
non-fatal: an out-of-range preset index is a no-op with an error status; a
negative detent count, negative gain, or negative steps-per-revolution, and
a bounded flag other than 0/1, leave the configuration (name included)
unchanged with an error status; calibration while bounded is skipped with an
informational status, leaving the calibration offset unchanged. -/
theorem C7_rejected_mutations_noop :
    (∀ st idx, ¬ (0 ≤ idx ∧ idx < MAX_PRESET_MODES) →
        doSwitchPresetMode st idx = (st, CmdStatus.error))
    ∧ (∀ st v, v < 0 → doSetNumDetents st v = (st, CmdStatus.error))
    ∧ (∀ st v, v < 0 → doSetDetentStrength st v = (st, CmdStatus.error))
    ∧ (∀ st v, v < 0 → doSetStepsPerRev st v = (st, CmdStatus.error))
    ∧ (∀ st v, ¬ (v = 0 ∨ v = 1) → doSetBounded st v = (st, CmdStatus.error))
    ∧ (∀ st a, st.current_knob_settings.is_bounded = true →
        doCalibrate st a = (st, CmdStatus.info)) := by
  refine ⟨?_, ?_, ?_, ?_, ?_, ?_⟩
  · intro st idx h
    unfold doSwitchPresetMode
    rw [if_neg h]
  · intro st v h
    unfold doSetNumDetents
    rw [if_neg (not_le.2 h)]
  · intro st v h
    unfold doSetDetentStrength
    rw [if_neg (not_le.2 h)]
  · intro st v h
    unfold doSetStepsPerRev
    rw [if_neg (not_le.2 h)]
  · intro st v h
    unfold doSetBounded
    rw [if_neg h]
  · intro st a h
    simp [doCalibrate, h]

/-- Closed witness for C7: preset index 13 is rejected without touching the
state. -/
theorem C7_rejected_mutations_noop_witness :
    doSwitchPresetMode setupState 13 = (setupState, CmdStatus.error) :=
  C7_rejected_mutations_noop.1 setupState 13 (by decide)

/-! ### C9 -/

/-- C9: `doSetStepsPerRev` with value `0` succeeds (0 is legal), sets the
field to `0`, renames the configuration to `"Custom"` (and resets the
reporting sentinel), and thereafter the step quantizer produces `0` on
every tick. -/
theorem C9_steps_zero_legal (st : KnobState) :
    doSetStepsPerRev st 0 =
      ({ st with
          current_knob_settings :=
            { st.current_knob_settings with
                steps_per_revolution := 0, name := "Custom" },
          last_reported_step := SENTINEL }, CmdStatus.ok)
    ∧ ∀ a, (tick (doSetStepsPerRev st 0).1 a).2.stepIndex = 0 := by
  constructor
  · unfold doSetStepsPerRev applyCurrentSettingsToMotor
    rw [if_pos le_rfl]
  · intro a
    unfold doSetStepsPerRev applyCurrentSettingsToMotor tick
    rw [if_pos le_rfl]
    simp only
    unfold stepOutput
    norm_num

/-! ### C4 -/

/-- C4 (counterexample to the claim's example): with preset 1 (unbounded,
12 detents), offset 0 and shaft angle 0.3 rad, the spacing is
`2π/12 ≈ 0.5236` and `0.3 / 0.5236 ≈ 0.573` rounds to index 1, so the
target is `2π/12`, not `0.0` as the claim asserts. -/
theorem C4_counterexample :
    hapticTargetAngle unboundedTwelveSettings 0 (3 / 10) = twoPiConst / 12 ∧
    hapticTargetAngle unboundedTwelveSettings 0 (3 / 10) ≠ 0 := by
  have h : hapticTargetAngle unboundedTwelveSettings 0 (3 / 10) = twoPiConst / 12 := by
    norm_num [hapticTargetAngle, unboundedTwelveSettings, roundAway, twoPiConst, round_eq]
  refine ⟨h, ?_⟩
  rw [h]
  norm_num [twoPiConst]

/-- C4 (amended): for every unbounded settings with `num_detents = k > 0`,
calibration offset `o`, and any shaft angle, the haptic transform returns
`o + round((shaftAngle - o) / (2π/k)) * (2π/k)` — an infinite repeating
lattice with no index clamp — so `target - o` is an exact integer multiple
of `2π/k`.  (At k = 12, o = 0, shaft 0.3 rad the nearest lattice index is
1, so the target is `2π/12 ≈ 0.5236`, not `0.0`.) -/
theorem C4_unbounded_lattice (s : KnobSettings) (o a : ℚ)
    (hb : s.is_bounded = false) (hk : 0 < s.num_detents) :
    hapticTargetAngle s o a =
      o + (roundAway ((a - o) / (twoPiConst / (s.num_detents : ℚ))) : ℚ) *
        (twoPiConst / (s.num_detents : ℚ))
    ∧ ∃ m : ℤ, hapticTargetAngle s o a - o =
        (m : ℚ) * (twoPiConst / (s.num_detents : ℚ)) := by
  have h1 : hapticTargetAngle s o a =
      (roundAway ((a - o) / (twoPiConst / (s.num_detents : ℚ))) : ℚ) *
        (twoPiConst / (s.num_detents : ℚ)) + o := by
    rw [hapticTargetAngle, hb]
    simp only [Bool.false_eq_true, if_false]
    rw [if_pos hk, if_pos hk]
  constructor
  · rw [h1]
    ring
  · refine ⟨roundAway ((a - o) / (twoPiConst / (s.num_detents : ℚ))), ?_⟩
    rw [h1]
    ring

/-- Closed witness for the amended C4 at the corrected example input. -/
theorem C4_unbounded_lattice_witness :
    ∃ m : ℤ, hapticTargetAngle unboundedTwelveSettings 0 (3 / 10) - 0 =
      (m : ℚ) * (twoPiConst / (unboundedTwelveSettings.num_detents : ℚ)) :=
  (C4_unbounded_lattice unboundedTwelveSettings 0 (3 / 10) rfl
    (by norm_num [unboundedTwelveSettings])).2

/-! ### C8 -/

/-- C8: `calibrate` invoked while unbounded sets the calibration offset to
the current shaft reading, zeroes the current step and resets
`last_reported_step` to the sentinel, so a tick at that same reading
computes the zero-relative step 0 and force-reports it; invoked while
bounded it is rejected with an informational, non-fatal status and no state
change. -/
theorem C8_calibrate (st : KnobState) (a : ℚ) :
    (st.current_knob_settings.is_bounded = false →
      doCalibrate st a =
        ({ st with
            motor_shaft_offset := a,
            current_step_output := 0,
            last_reported_step := SENTINEL }, CmdStatus.ok)
      ∧ (tick (doCalibrate st a).1 a).2.stepIndex = 0
      ∧ (tick (doCalibrate st a).1 a).2.stepChanged = true)
    ∧ (st.current_knob_settings.is_bounded = true →
        doCalibrate st a = (st, CmdStatus.info)) := by
  constructor
  · intro h
    have heq : doCalibrate st a =
        ({ st with
            motor_shaft_offset := a,
            current_step_output := 0,
            last_reported_step := SENTINEL }, CmdStatus.ok) := by
      unfold doCalibrate
      rw [if_pos h]
    have hstep : stepOutput st.current_knob_settings a a = 0 := by
      rw [stepOutput, h]
      simp only [Bool.false_eq_true, if_false]
      split
      · norm_num [roundAway]
      · rfl
    refine ⟨heq, ?_, ?_⟩
    · rw [heq]
      simp only [tick]
      exact hstep
    · rw [heq]
      simp only [tick]
      rw [hstep]
      norm_num [SENTINEL]
  · intro h
    simp [doCalibrate, h]

/-- Closed witness for C8: calibrating the boot state (unbounded) at shaft
angle 5 makes the next tick at angle 5 report. -/
theorem C8_calibrate_witness :
    (tick (doCalibrate setupState 5).1 5).2.stepChanged = true :=
  ((C8_calibrate setupState 5).1 rfl).2.2

/-! ### C2 -/

/-- The Step Quantizer as the claim words it: one total case analysis on
`steps_per_revolution`, boundedness and span validity, written from the
spec's sentences for comparison against `stepOutput` (written from the
code). -/
def stepQuantizerSpec (s : KnobSettings) (offset shaft : ℚ) : ℤ :=
  if s.steps_per_revolution ≤ 0 then 0
  else if s.is_bounded then
    if 1 / 1000 < s.max_angle_rad - s.min_angle_rad then
      constrainInt
        (roundAway
          (constrain (shaft - s.min_angle_rad) 0 (s.max_angle_rad - s.min_angle_rad) /
            ((s.max_angle_rad - s.min_angle_rad) / (s.steps_per_revolution : ℚ))))
        0 s.steps_per_revolution
    else 0
  else
    roundAway ((shaft - offset) / (twoPiConst / (s.steps_per_revolution : ℚ)))

/-- C2: the firmware's step computation agrees everywhere with the claim's
total function, and in the unbounded case the result is unclamped: every
integer, positive or negative, is attained at some shaft angle. -/
theorem C2_step_quantizer_total :
    (∀ s o a, stepOutput s o a = stepQuantizerSpec s o a)
    ∧ (∀ s o, s.is_bounded = false → 0 < s.steps_per_revolution →
        ∀ n : ℤ, ∃ a, stepOutput s o a = n) := by
  constructor
  · intro s o a
    rw [stepOutput, stepQuantizerSpec]
    by_cases h : 0 < s.steps_per_revolution
    · rw [if_pos h, if_neg (not_le.2 h)]
    · rw [if_neg h, if_pos (not_lt.1 h)]
  · intro s o hb hsteps n
    refine ⟨o + (n : ℚ) * (twoPiConst / (s.steps_per_revolution : ℚ)), ?_⟩
    rw [stepOutput, hb]
    simp only [Bool.false_eq_true, if_false]
    rw [if_pos hsteps]
    have hw : twoPiConst / (s.steps_per_revolution : ℚ) ≠ 0 := by
      apply div_ne_zero
      · norm_num [twoPiConst]
      · exact_mod_cast hsteps.ne'
    have harg : (o + (n : ℚ) * (twoPiConst / (s.steps_per_revolution : ℚ)) - o) /
        (twoPiConst / (s.steps_per_revolution : ℚ)) = (n : ℚ) := by
      rw [add_sub_cancel_left, mul_div_cancel_right₀ _ hw]
    rw [harg, roundAway_intCast]

/-- Closed witness for C2: in preset 1 (unbounded) step `-5` is reachable. -/
theorem C2_step_quantizer_total_witness :
    ∃ a, stepOutput unboundedTwelveSettings 0 a = -5 :=
  C2_step_quantizer_total.2 unboundedTwelveSettings 0 rfl
    (by norm_num [unboundedTwelveSettings]) (-5)

/-! ### C5 -/

/-- After any tick, `last_reported_step` equals the step that tick
computed (it is written when it changed, and already equal otherwise). -/
theorem tick_last_eq_step (st : KnobState) (a : ℚ) :
    (tick st a).1.last_reported_step = (tick st a).2.stepIndex := by
  simp only [tick]
  by_cases h : stepOutput st.current_knob_settings st.motor_shaft_offset a =
      st.last_reported_step
  · simp [h]
  · simp [h]

/-- C5 (counterexample to "regardless of the numeric step value"): start
from an unbounded configuration with one step per revolution, perform the
mutation `doSetStepsPerRev 1` (accepted, so `last_reported_step` becomes
the sentinel), and tick at shaft angle `-99999 · 2π`: the computed step is
`-99999`, which collides with the sentinel, so the very next tick after the
mutation reports `stepChanged = false`. -/
theorem C5_counterexample :
    (doSetStepsPerRev (stateWith oneStepUnboundedSettings) 1).2 = CmdStatus.ok ∧
    (tick (doSetStepsPerRev (stateWith oneStepUnboundedSettings) 1).1
        (-99999 * twoPiConst)).2.stepChanged = false := by
  constructor
  · rfl
  · have hs : stepOutput
        { oneStepUnboundedSettings with steps_per_revolution := 1, name := "Custom" }
        0 (-99999 * twoPiConst) = -99999 := by
      rw [stepOutput]
      norm_num [oneStepUnboundedSettings, roundAway, twoPiConst, round_eq]
    show decide (stepOutput
        { oneStepUnboundedSettings with steps_per_revolution := 1, name := "Custom" }
        0 (-99999 * twoPiConst) ≠ SENTINEL) = false
    rw [hs]
    norm_num [SENTINEL]

/-- C5 (amended): (1) if two consecutive ticks compute the same step
index, the second reports `stepChanged = false` and emits no `STEP:` line;
(2) every accepted configuration mutation — preset switch, calibration, or
any field edit — resets `last_reported_step` to the sentinel; (3) after
such a reset the very next tick reports `stepChanged = true` provided the
step it computes is not the sentinel value `-99999` itself (which an
unbounded configuration can in principle produce). -/
theorem C5_change_suppression :
    (∀ st a₁ a₂,
        (tick (tick st a₁).1 a₂).2.stepIndex = (tick st a₁).2.stepIndex →
          (tick (tick st a₁).1 a₂).2.stepChanged = false ∧
          (tick (tick st a₁).1 a₂).2.serialOut = [])
    ∧ (∀ st idx, 0 ≤ idx → idx < MAX_PRESET_MODES →
        (doSwitchPresetMode st idx).1.last_reported_step = SENTINEL)
    ∧ (∀ st a, st.current_knob_settings.is_bounded = false →
        (doCalibrate st a).1.last_reported_step = SENTINEL)
    ∧ (∀ st v, 0 ≤ v → (doSetNumDetents st v).1.last_reported_step = SENTINEL)
    ∧ (∀ st v, 0 ≤ v → (doSetDetentStrength st v).1.last_reported_step = SENTINEL)
    ∧ (∀ st v, 0 ≤ v → (doSetStepsPerRev st v).1.last_reported_step = SENTINEL)
    ∧ (∀ st v, v = 0 ∨ v = 1 → (doSetBounded st v).1.last_reported_step = SENTINEL)
    ∧ (∀ st v, (doSetMinAngle st v).1.last_reported_step = SENTINEL)
    ∧ (∀ st v, (doSetMaxAngle st v).1.last_reported_step = SENTINEL)
    ∧ (∀ st a, st.last_reported_step = SENTINEL →
        (tick st a).2.stepIndex ≠ SENTINEL →
        (tick st a).2.stepChanged = true) := by
  refine ⟨?_, ?_, ?_, ?_, ?_, ?_, ?_, ?_, ?_, ?_⟩
  · intro st a₁ a₂ h
    have hc : (tick (tick st a₁).1 a₂).2.stepChanged = false := by
      show decide ((tick (tick st a₁).1 a₂).2.stepIndex ≠
          (tick st a₁).1.last_reported_step) = false
      rw [tick_last_eq_step st a₁, h]
      simp
    refine ⟨hc, ?_⟩
    show (if (tick (tick st a₁).1 a₂).2.stepChanged = true then
        ["STEP:" ++ toString (tick (tick st a₁).1 a₂).2.stepIndex] else []) = []
    rw [hc]
    simp
  · intro st idx h1 h2
    rw [doSwitchPresetMode, if_pos (And.intro h1 h2)]
    rfl
  · intro st a h
    rw [doCalibrate, if_pos h]
  · intro st v h
    rw [doSetNumDetents, if_pos h]
    rfl
  · intro st v h
    rw [doSetDetentStrength, if_pos h]
    rfl
  · intro st v h
    rw [doSetStepsPerRev, if_pos h]
    rfl
  · intro st v h
    rw [doSetBounded, if_pos h]
    rfl
  · intro st v
    rfl
  · intro st v
    rfl
  · intro st a hl hne
    show decide ((tick st a).2.stepIndex ≠ st.last_reported_step) = true
    rw [hl]
    exact decide_eq_true hne

/-- Closed witness for the amended C5: at the boot state (sentinel loaded,
step 0 computed) the first tick reports. -/
theorem C5_change_suppression_witness :
    (tick setupState 0).2.stepChanged = true :=
  C5_change_suppression.2.2.2.2.2.2.2.2.2 setupState 0 rfl
    (by norm_num [tick, stepOutput, setupState, roundAway, twoPiConst, SENTINEL])

/-! ### C1 -/

/-- The set of detent target angles the claim describes for a bounded
configuration: `min + i * (span / num_detents)` for `i = 0 .. num_detents`. -/
def detentLattice (s : KnobSettings) : Finset ℚ :=
  (Finset.Icc 0 s.num_detents).image
    (fun i : ℤ =>
      s.min_angle_rad +
        (i : ℚ) * ((s.max_angle_rad - s.min_angle_rad) / (s.num_detents : ℚ)))

/-- C1: for every bounded settings with valid span (`max - min > 0.001`)
and `num_detents = k > 0` and every shaft angle, the transform returns
`min + i * (span/k)` for `i = round((shaft - min)/(span/k))` clamped to
`[0, k]`, finally clamped to `[min, max]`; consequently the set of
reachable target angles is exactly the `k + 1`-element detent lattice,
containing both `min` and `max`. -/
theorem C1_bounded_detent_transform (s : KnobSettings) (o : ℚ)
    (hb : s.is_bounded = true)
    (hspan : 1 / 1000 < s.max_angle_rad - s.min_angle_rad)
    (hk : 0 < s.num_detents) :
    (∀ a, hapticTargetAngle s o a =
        constrain
          (s.min_angle_rad +
            (constrainInt
              (roundAway ((a - s.min_angle_rad) /
                ((s.max_angle_rad - s.min_angle_rad) / (s.num_detents : ℚ))))
              0 s.num_detents : ℚ) *
            ((s.max_angle_rad - s.min_angle_rad) / (s.num_detents : ℚ)))
          s.min_angle_rad s.max_angle_rad)
    ∧ (∀ a, hapticTargetAngle s o a ∈ detentLattice s)
    ∧ (∀ t ∈ detentLattice s, ∃ a, hapticTargetAngle s o a = t)
    ∧ ((detentLattice s).card : ℤ) = s.num_detents + 1
    ∧ s.min_angle_rad ∈ detentLattice s
    ∧ s.max_angle_rad ∈ detentLattice s := by
  have hspan0 : (0 : ℚ) < s.max_angle_rad - s.min_angle_rad :=
    lt_trans (by norm_num) hspan
  have hkQ : (0 : ℚ) < (s.num_detents : ℚ) := by exact_mod_cast hk
  have hsp : 0 < (s.max_angle_rad - s.min_angle_rad) / (s.num_detents : ℚ) :=
    div_pos hspan0 hkQ
  have hkspan : (s.num_detents : ℚ) *
      ((s.max_angle_rad - s.min_angle_rad) / (s.num_detents : ℚ)) =
      s.max_angle_rad - s.min_angle_rad := by
    rw [mul_comm]
    exact div_mul_cancel₀ _ (ne_of_gt hkQ)
  have hmem : ∀ i : ℤ, 0 ≤ i → i ≤ s.num_detents →
      s.min_angle_rad ≤ s.min_angle_rad +
          (i : ℚ) * ((s.max_angle_rad - s.min_angle_rad) / (s.num_detents : ℚ)) ∧
        s.min_angle_rad +
          (i : ℚ) * ((s.max_angle_rad - s.min_angle_rad) / (s.num_detents : ℚ)) ≤
          s.max_angle_rad := by
    intro i h0 hik
    constructor
    · have h1 : 0 ≤ (i : ℚ) *
          ((s.max_angle_rad - s.min_angle_rad) / (s.num_detents : ℚ)) :=
        mul_nonneg (by exact_mod_cast h0) hsp.le
      linarith
    · have h1 : (i : ℚ) ≤ (s.num_detents : ℚ) := by exact_mod_cast hik
      have h2 : (i : ℚ) *
            ((s.max_angle_rad - s.min_angle_rad) / (s.num_detents : ℚ)) ≤
          (s.num_detents : ℚ) *
            ((s.max_angle_rad - s.min_angle_rad) / (s.num_detents : ℚ)) :=
        mul_le_mul_of_nonneg_right h1 hsp.le
      rw [hkspan] at h2
      linarith
  have hformula : ∀ a, hapticTargetAngle s o a =
      constrain
        (s.min_angle_rad +
          (constrainInt
            (roundAway ((a - s.min_angle_rad) /
              ((s.max_angle_rad - s.min_angle_rad) / (s.num_detents : ℚ))))
            0 s.num_detents : ℚ) *
          ((s.max_angle_rad - s.min_angle_rad) / (s.num_detents : ℚ)))
        s.min_angle_rad s.max_angle_rad := by
    intro a
    rw [hapticTargetAngle, hb]
    simp only [if_true]
    rw [if_neg (not_le.2 hspan), if_pos hk, if_pos hk]
  have hin : ∀ a, hapticTargetAngle s o a ∈ detentLattice s := by
    intro a
    rw [hformula a]
    obtain ⟨h0, h1⟩ := constrainInt_bounds
      (x := roundAway ((a - s.min_angle_rad) /
        ((s.max_angle_rad - s.min_angle_rad) / (s.num_detents : ℚ)))) hk.le
    rw [constrain_eq_self (hmem _ h0 h1).1 (hmem _ h0 h1).2]
    exact Finset.mem_image.2 ⟨_, Finset.mem_Icc.2 ⟨h0, h1⟩, rfl⟩
  have hreach : ∀ t ∈ detentLattice s, ∃ a, hapticTargetAngle s o a = t := by
    intro t ht
    obtain ⟨i, hi, rfl⟩ := Finset.mem_image.1 ht
    obtain ⟨h0, h1⟩ := Finset.mem_Icc.1 hi
    refine ⟨s.min_angle_rad +
      (i : ℚ) * ((s.max_angle_rad - s.min_angle_rad) / (s.num_detents : ℚ)), ?_⟩
    rw [hformula]
    have harg : (s.min_angle_rad +
          (i : ℚ) * ((s.max_angle_rad - s.min_angle_rad) / (s.num_detents : ℚ)) -
          s.min_angle_rad) /
        ((s.max_angle_rad - s.min_angle_rad) / (s.num_detents : ℚ)) = (i : ℚ) := by
      rw [add_sub_cancel_left, mul_div_cancel_right₀ _ (ne_of_gt hsp)]
    rw [harg, roundAway_intCast, constrainInt_eq_self h0 h1,
      constrain_eq_self (hmem i h0 h1).1 (hmem i h0 h1).2]
  have hcard : ((detentLattice s).card : ℤ) = s.num_detents + 1 := by
    have hinj : Function.Injective
        (fun i : ℤ =>
          s.min_angle_rad +
            (i : ℚ) * ((s.max_angle_rad - s.min_angle_rad) / (s.num_detents : ℚ))) := by
      intro i j hij
      simp only [add_right_inj] at hij
      have h1 := mul_right_cancel₀ (ne_of_gt hsp) hij
      exact_mod_cast h1
    rw [detentLattice, Finset.card_image_of_injective _ hinj, Int.card_Icc]
    rw [sub_zero]
    exact Int.toNat_of_nonneg (by omega)
  have hmin : s.min_angle_rad ∈ detentLattice s := by
    refine Finset.mem_image.2 ⟨0, Finset.mem_Icc.2 ⟨le_rfl, hk.le⟩, ?_⟩
    push_cast
    ring
  have hmax : s.max_angle_rad ∈ detentLattice s := by
    refine Finset.mem_image.2 ⟨s.num_detents, Finset.mem_Icc.2 ⟨hk.le, le_rfl⟩, ?_⟩
    rw [hkspan]
    ring
  exact ⟨hformula, hin, hreach, hcard, hmin, hmax⟩

/-- Closed witness for C1 at spec Example 1: preset 2 (bounded `[0, _PI]`,
8 detents) with shaft angle `_PI/2` yields exactly `_PI/2` (index 4). -/
theorem C1_bounded_detent_transform_witness :
    hapticTargetAngle boundedPiEightSettings 0 (piConst / 2) = piConst / 2 := by
  have h := (C1_bounded_detent_transform boundedPiEightSettings 0 rfl
      (by norm_num [boundedPiEightSettings, piConst])
      (by norm_num [boundedPiEightSettings])).1 (piConst / 2)
  rw [h]
  norm_num [boundedPiEightSettings, piConst, roundAway, round_eq, constrain, constrainInt]

end HapticKnob
